import Mathlib

/-!
# Verification of the limitly-nextjs client library

Shallow embedding of the request executor (`src/client.ts`, class
`HttpClient`) and the two request gates (`src/index.ts`,
`Limitly.createMiddleware` and `Limitly.withRateLimit`), together with
proofs of the specified properties.

JavaScript semantics that matter here and are modelled explicitly:
* `a || b` evaluates the *truthiness* of `a`: `undefined`, the empty
  string and the number `0` are falsy.  We model optional JS values as
  `Option` and give `jsOr`-style helpers per type.
* `String.prototype.replace(pat, repl)` with a string pattern replaces
  only the *first* occurrence of `pat`, anywhere in the string.
* In an `async` function, `return p` inside a `try` block does *not*
  route a rejection of the promise `p` through the `catch` handler;
  only awaited/synchronous failures inside the block are caught.
-/

namespace Limitly

/-! ## JS helpers -/

/-- Truthiness of an optional JS string: `undefined` and `""` are falsy. -/
def jsStrTruthy : Option String → Bool
  | some s => s ≠ ""
  | none => false

/-- `a || b` for optional JS strings (result is the JS value of the
expression, which may itself be falsy). -/
def jsOr (a b : Option String) : Option String :=
  if jsStrTruthy a then a else b

/-- `a || b` where `a` is an optional JS string and `b` a plain string
default (e.g. `config.baseUrl || DEFAULT`). `0` analogue: `""` is falsy. -/
def jsOrStr (a : Option String) (b : String) : String :=
  match a with
  | some s => if s = "" then b else s
  | none => b

/-- `a || b` for an optional JS number with a plain default: `undefined`
and `0` are falsy (e.g. `config.timeout || 30000`). -/
def jsOrNat (a : Option Nat) (b : Nat) : Nat :=
  match a with
  | some n => if n = 0 then b else n
  | none => b

/-- Replace the first occurrence of `pat` in `s` by `repl` (as a list of
characters), the semantics of JS `String.prototype.replace` with a
string pattern. -/
def replaceFirstL (pat repl : List Char) : List Char → List Char
  | [] => []
  | c :: rest =>
    if pat.isPrefixOf (c :: rest) then repl ++ (c :: rest).drop pat.length
    else c :: replaceFirstL pat repl rest

/-- String-level wrapper for `replaceFirstL`. -/
def replaceFirst (s pat repl : String) : String :=
  String.mk (replaceFirstL pat.data repl.data s.data)

/-- Whether `pat` occurs as a contiguous sublist of `s`. -/
def containsSub (pat : List Char) : List Char → Bool
  | [] => pat.isPrefixOf ([] : List Char)
  | c :: rest => pat.isPrefixOf (c :: rest) || containsSub pat rest

/-! ## Data model (`src/types.ts`) -/

/-- Body attached to a `LimitlyError`.  The executor attaches either the
server response body (an `ApiResponse`-shaped record whose `error` field
is an optional string) or the literal object `{originalError: msg}`;
the constructor may also be called without a body. -/
inductive ErrBody where
  | apiBody (error : Option String) (rest : List (String × String))
  | networkBody (originalError : String)
  deriving DecidableEq, Repr

/-- `class LimitlyError extends Error` — message, numeric status code
(0 when no HTTP response was received), optional response body. -/
structure LimitlyError where
  message : String
  statusCode : Nat
  response : Option ErrBody
  deriving DecidableEq, Repr

/-- `interface LimitlyConfig` — `apiKey` required, `baseUrl` and
`timeout` optional. -/
structure LimitlyConfig where
  apiKey : String
  baseUrl : Option String
  timeout : Option Nat

/-- `interface RequestOptions` — per-call timeout, extra headers and the
inert Next.js cache hints. -/
structure RequestOptions where
  timeout : Option Nat
  headers : List (String × String)
  cache : Option Bool
  revalidate : Option Nat

/-! ## Request executor (`src/client.ts`, class `HttpClient`) -/

/-- Immutable executor state captured at construction. -/
structure HttpClient where
  apiKey : String
  baseUrl : String
  timeout : Nat

/-- The `HttpClient` constructor: defaults `baseUrl` and `timeout` with
JS `||` (so `timeout: 0` in the config also falls back to `30000`). -/
def HttpClient.ofConfig (config : LimitlyConfig) : HttpClient where
  apiKey := config.apiKey
  baseUrl := jsOrStr config.baseUrl "https://xfkyofkqbukqtxcuapvf.supabase.co/functions/v1"
  timeout := jsOrNat config.timeout 30000

/-- The caller-side `AxiosRequestConfig` fragment each verb supplies
(`method`, optional `data` body, optional headers). Bodies are abstract. -/
structure AxiosOpts (B : Type) where
  method : String
  data : Option B
  headers : List (String × String)

/-- The request configuration `makeRequest` builds before the call
(`src/client.ts` lines 447–458).  Header spread order: defaults, then
`options.headers`, then `requestOptions?.headers`; on a key collision a
later entry wins (lookups must take the last binding). -/
structure RequestConfig (B : Type) where
  url : String
  method : String
  data : Option B
  headers : List (String × String)
  timeout : Nat

/-- `const requestConfig = {...}` of `makeRequest`: URL concatenation of
base URL and endpoint (verbatim, no slash normalization), header merge,
and timeout resolution `requestOptions?.timeout || this.timeout`. -/
def HttpClient.requestConfig {B : Type} (client : HttpClient) (endpoint : String)
    (opts : AxiosOpts B) (ro : Option RequestOptions) : RequestConfig B where
  url := client.baseUrl ++ endpoint
  method := opts.method
  data := opts.data
  headers :=
    [("Authorization", "Bearer " ++ client.apiKey), ("Content-Type", "application/json")]
      ++ opts.headers ++ (match ro with | some r => r.headers | none => [])
  timeout := jsOrNat (ro.bind RequestOptions.timeout) client.timeout

/-- Outcome of `await axios(url, requestConfig)` as discriminated by the
`catch` block of `makeRequest`: success; a thrown value that is already
a `LimitlyError`; an axios error with `error.response` set (HTTP error
status: numeric `status`, `statusText`, body `data`); an axios error
with only `error.request` set (request sent, no response; carries
`error.message`); or anything else. -/
inductive AxiosOutcome (T : Type) where
  | success (data : T)
  | limitlyErr (e : LimitlyError)
  | responseErr (status : Nat) (statusText : String)
      (dataError : Option String) (dataRest : List (String × String))
  | requestErr (message : String)
  | otherErr
  deriving DecidableEq, Repr

/-- `HttpClient.makeRequest` (`src/client.ts` lines 442–488): build the
request configuration, run the transport (modelled as a function from the
built configuration to an `AxiosOutcome`), return `response.data` on
success and otherwise normalize the failure into a thrown `LimitlyError`
exactly as the `catch` ladder does. -/
def HttpClient.makeRequest {B T : Type} (client : HttpClient) (endpoint : String)
    (opts : AxiosOpts B) (ro : Option RequestOptions)
    (transport : RequestConfig B → AxiosOutcome T) : Except LimitlyError T :=
  match transport (client.requestConfig endpoint opts ro) with
  | .success data => .ok data
  | .limitlyErr e => .error e
  | .responseErr status statusText dataError dataRest =>
    .error ⟨jsOrStr dataError ("HTTP " ++ toString status ++ ": " ++ statusText),
            status, some (.apiBody dataError dataRest)⟩
  | .requestErr message =>
    .error ⟨"Network error: " ++ message, 0, some (.networkBody message)⟩
  | .otherErr => .error ⟨"Unknown error occurred", 0, none⟩

/-- `HttpClient.get` — delegates to `makeRequest` with `{method: 'GET'}`. -/
def HttpClient.get {B T : Type} (client : HttpClient) (endpoint : String)
    (ro : Option RequestOptions) (transport : RequestConfig B → AxiosOutcome T) :
    Except LimitlyError T :=
  client.makeRequest endpoint ⟨"GET", none, []⟩ ro transport

/-- `HttpClient.post` — delegates with `{method: 'POST', data: body}`. -/
def HttpClient.post {B T : Type} (client : HttpClient) (endpoint : String)
    (body : Option B) (ro : Option RequestOptions)
    (transport : RequestConfig B → AxiosOutcome T) : Except LimitlyError T :=
  client.makeRequest endpoint ⟨"POST", body, []⟩ ro transport

/-- `HttpClient.put` — delegates with `{method: 'PUT', data: body}`. -/
def HttpClient.put {B T : Type} (client : HttpClient) (endpoint : String)
    (body : Option B) (ro : Option RequestOptions)
    (transport : RequestConfig B → AxiosOutcome T) : Except LimitlyError T :=
  client.makeRequest endpoint ⟨"PUT", body, []⟩ ro transport

/-- `HttpClient.delete` — delegates with `{method: 'DELETE'}`. -/
def HttpClient.delete {B T : Type} (client : HttpClient) (endpoint : String)
    (ro : Option RequestOptions) (transport : RequestConfig B → AxiosOutcome T) :
    Except LimitlyError T :=
  client.makeRequest endpoint ⟨"DELETE", none, []⟩ ro transport

/-! ## Request gates (`src/index.ts`, class `Limitly`) -/

/-- `details` of `ValidateRequestResponse` (`src/types.ts` lines 184–190). -/
structure VDetails where
  current_usage : Nat
  limit : Nat
  plan_name : String
  period_start : String
  period_end : String
  deriving DecidableEq, Repr

/-- `interface ValidateRequestResponse` — the validation outcome. -/
structure ValidateResp where
  success : Bool
  message : Option String
  error : Option String
  details : Option VDetails
  deriving DecidableEq, Repr

/-- JSON bodies the gates send: `{error: ...}` or
`{error: ..., details: ...}`. -/
inductive GateBody where
  | errBody (error : String)
  | errBodyDetails (error : String) (details : Option VDetails)
  deriving DecidableEq, Repr

/-- First-match lookup in a header map (header objects have unique keys). -/
def lookupHeader (headers : List (String × String)) (name : String) : Option String :=
  (headers.find? (fun p => p.1 == name)).map Prod.snd

/-- `value.replace('Bearer ', '')` — removes the *first* occurrence of
the substring `"Bearer "` anywhere in the value. -/
def stripBearer (s : String) : String :=
  replaceFirst s "Bearer " ""

/-- The credential extraction both adapters perform:
`headers[apiKeyHeader]?.replace('Bearer ', '') ||
 headers['authorization']?.replace('Bearer ', '')`. -/
def extractApiKey (headers : List (String × String)) (apiKeyHeader : String) :
    Option String :=
  jsOr ((lookupHeader headers apiKeyHeader).map stripBearer)
       ((lookupHeader headers "authorization").map stripBearer)

/-- Options of `createMiddleware`.  The two hooks are modelled by their
presence (they receive `req`/`res`/the error and return nothing). -/
structure MwOptions where
  apiKeyHeader : Option String
  hasOnRateLimitExceeded : Bool
  hasOnValidationError : Bool

/-- The mutable `req` object the middleware reads: a header map, the
optional `url` and `path` properties, and the method string. -/
structure MwReq where
  headers : List (String × String)
  url : Option String
  path : Option String
  method : String

/-- Observable outcome of one middleware invocation: the response sent
via `res.status(...).json(...)` (if any), whether/with which arguments
`validation.validate` was called, and which hooks/continuation ran. -/
structure MwOutcome where
  response : Option (Nat × GateBody)
  validateCalled : Bool
  validateArgs : Option (String × Option String × String)
  nextCalled : Bool
  onValidationErrorCalled : Bool
  onRateLimitExceededCalled : Bool
  deriving Repr

/-- `Limitly.createMiddleware` (`src/index.ts` lines 310–355) applied to
one request.  `validate` models the awaited
`this.validation.validate(apiKey, req.url || req.path, req.method)`
call: it returns the outcome of that promise (`.error` = rejection of
arbitrary type `E`, caught by the adapter's `try`/`catch` and turned
into a 500).  `hasNext` records whether a continuation was supplied;
hooks and `next` are modelled as flags and assumed not to throw. -/
def runMiddleware {E : Type} (opts : MwOptions) (req : MwReq) (hasNext : Bool)
    (validate : String → Option String → String → Except E ValidateResp) :
    MwOutcome :=
  let hdr := jsOrStr opts.apiKeyHeader "authorization"
  let apiKey := extractApiKey req.headers hdr
  if jsStrTruthy apiKey = false then
    { response := some (401, .errBody "API Key required")
      validateCalled := false, validateArgs := none, nextCalled := false
      onValidationErrorCalled := opts.hasOnValidationError
      onRateLimitExceededCalled := false }
  else
    let key := apiKey.getD ""
    let endpoint := jsOr req.url req.path
    match validate key endpoint req.method with
    | .error _ =>
      { response := some (500, .errBody "Validation error")
        validateCalled := true, validateArgs := some (key, endpoint, req.method)
        nextCalled := false
        onValidationErrorCalled := opts.hasOnValidationError
        onRateLimitExceededCalled := false }
    | .ok result =>
      if result.success = false then
        { response := some (429, .errBodyDetails "Rate limit exceeded" result.details)
          validateCalled := true, validateArgs := some (key, endpoint, req.method)
          nextCalled := false, onValidationErrorCalled := false
          onRateLimitExceededCalled := opts.hasOnRateLimitExceeded }
      else
        { response := none
          validateCalled := true, validateArgs := some (key, endpoint, req.method)
          nextCalled := hasNext, onValidationErrorCalled := false
          onRateLimitExceededCalled := false }

/-- A parsed absolute URL as produced by `new URL(request.url)` for a
canonical `scheme://host/path?query` string: `href = origin ++ pathname
++ search`, where `search` is empty or starts with `?`. -/
structure JsUrl where
  origin : String
  pathname : String
  search : String
  deriving DecidableEq, Repr

/-- The string the URL was parsed from. -/
def JsUrl.href (u : JsUrl) : String :=
  u.origin ++ u.pathname ++ u.search

/-- Options of `withRateLimit`.  The `onRateLimitExceeded` override
producer is modelled by the response value it returns (it is assumed
not to throw). -/
structure WrlOptions (R : Type) where
  apiKeyHeader : Option String
  onRateLimitExceeded : Option R

/-- The immutable fetch-API `Request` the wrapper reads. -/
structure WrlReq where
  headers : List (String × String)
  url : JsUrl
  method : String

/-- What the wrapped handler returns to its caller. -/
inductive WrlResult (R : Type) where
  | gateJson (status : Nat) (body : GateBody)
  | overridden (r : R)
  | delegated (r : R)
  deriving DecidableEq, Repr

/-- Observable outcome of one invocation of the wrapped handler:
`result` is the settled value of the returned promise (`.error` = a
rejection propagating to the adapter's caller). -/
structure WrlOutcome (E R : Type) where
  result : Except E (WrlResult R)
  validateCalled : Bool
  validateArgs : Option (String × String × String)
  handlerInvoked : Bool

/-- `Limitly.withRateLimit` (`src/index.ts` lines 363–403) applied to
one request.  `validate` models the awaited validation call (its
rejection is caught by the `try`/`catch` and turned into a 500).
`handler` models the settled outcome of the promise the wrapped handler
returns; since the adapter executes `return handler(request, ...args)`
without `await`, a rejection of that promise is NOT routed through the
`catch` block and propagates to the caller. -/
def runWithRateLimit {E R : Type} (opts : WrlOptions R) (req : WrlReq)
    (validate : String → String → String → Except E ValidateResp)
    (handler : Except E R) : WrlOutcome E R :=
  let hdr := jsOrStr opts.apiKeyHeader "authorization"
  let apiKey := extractApiKey req.headers hdr
  if jsStrTruthy apiKey = false then
    { result := .ok (.gateJson 401 (.errBody "API Key required"))
      validateCalled := false, validateArgs := none, handlerInvoked := false }
  else
    let key := apiKey.getD ""
    match validate key req.url.pathname req.method with
    | .error _ =>
      { result := .ok (.gateJson 500 (.errBody "Validation error"))
        validateCalled := true
        validateArgs := some (key, req.url.pathname, req.method)
        handlerInvoked := false }
    | .ok result =>
      if result.success = false then
        match opts.onRateLimitExceeded with
        | some r =>
          { result := .ok (.overridden r)
            validateCalled := true
            validateArgs := some (key, req.url.pathname, req.method)
            handlerInvoked := false }
        | none =>
          { result := .ok (.gateJson 429 (.errBodyDetails "Rate limit exceeded" result.details))
            validateCalled := true
            validateArgs := some (key, req.url.pathname, req.method)
            handlerInvoked := false }
      else
        { result := handler.map .delegated
          validateCalled := true
          validateArgs := some (key, req.url.pathname, req.method)
          handlerInvoked := true }

/-! ## Helper lemmas on replace-first semantics -/

/-- If `pat` does not occur in `s`, replacing its first occurrence is the
identity. -/
theorem replaceFirstL_not_contains (pat repl : List Char) (s : List Char)
    (h : containsSub pat s = false) : replaceFirstL pat repl s = s := by
  induction s with
  | nil => rfl
  | cons c rest ih =>
    unfold containsSub at h
    rw [Bool.or_eq_false_iff] at h
    unfold replaceFirstL
    rw [if_neg (by simp [h.1]), ih h.2]

/-- If `pat` is a (nonempty) prefix of `s`, replacing its first
occurrence replaces exactly that prefix. -/
theorem replaceFirstL_prefix_case (pat repl : List Char) (s : List Char)
    (hne : pat ≠ []) (h : pat.isPrefixOf s = true) :
    replaceFirstL pat repl s = repl ++ s.drop pat.length := by
  cases s with
  | nil =>
    cases pat with
    | nil => exact absurd rfl hne
    | cons p ps => simp [List.isPrefixOf] at h
  | cons c rest =>
    unfold replaceFirstL
    rw [if_pos (by simp [h])]

/-- `stripBearer` leaves a value not containing `"Bearer "` verbatim. -/
theorem stripBearer_not_contains (s : String)
    (h : containsSub "Bearer ".data s.data = false) : stripBearer s = s := by
  obtain ⟨l⟩ := s
  unfold stripBearer replaceFirst
  rw [replaceFirstL_not_contains _ _ _ h]

/-- `stripBearer` removes the `"Bearer "` prefix when the value starts
with it. -/
theorem stripBearer_prefix_case (s : String)
    (h : "Bearer ".data.isPrefixOf s.data = true) :
    stripBearer s = String.mk (s.data.drop 7) := by
  unfold stripBearer replaceFirst
  rw [replaceFirstL_prefix_case _ _ _ (by decide) h]
  rfl

/-! ## Claims about the request executor -/

/-- C1: every invocation of `makeRequest` (also via the four verbs)
yields exactly one of: the parsed response payload returned unchanged on
transport success, or a thrown `LimitlyError`; no branch swallows a
failure. -/
theorem executor_payload_or_normalized_error {B T : Type} (client : HttpClient)
    (endpoint : String) (opts : AxiosOpts B) (ro : Option RequestOptions)
    (transport : RequestConfig B → AxiosOutcome T) :
    ((∃ data, transport (client.requestConfig endpoint opts ro) = .success data ∧
        client.makeRequest endpoint opts ro transport = .ok data) ∨
      (∃ e, client.makeRequest endpoint opts ro transport = .error e)) ∧
    client.get endpoint ro transport
      = client.makeRequest endpoint ⟨"GET", none, []⟩ ro transport ∧
    (∀ body, client.post endpoint body ro transport
      = client.makeRequest endpoint ⟨"POST", body, []⟩ ro transport) ∧
    (∀ body, client.put endpoint body ro transport
      = client.makeRequest endpoint ⟨"PUT", body, []⟩ ro transport) ∧
    client.delete endpoint ro transport
      = client.makeRequest endpoint ⟨"DELETE", none, []⟩ ro transport := by
  refine ⟨?_, rfl, fun _ => rfl, fun _ => rfl, rfl⟩
  cases h : transport (client.requestConfig endpoint opts ro) with
  | success data => exact .inl ⟨data, rfl, by simp [HttpClient.makeRequest, h]⟩
  | limitlyErr e => exact .inr ⟨e, by simp [HttpClient.makeRequest, h]⟩
  | responseErr status statusText dataError dataRest =>
    exact .inr ⟨⟨jsOrStr dataError ("HTTP " ++ toString status ++ ": " ++ statusText),
      status, some (.apiBody dataError dataRest)⟩, by simp [HttpClient.makeRequest, h]⟩
  | requestErr message =>
    exact .inr ⟨⟨"Network error: " ++ message, 0, some (.networkBody message)⟩,
      by simp [HttpClient.makeRequest, h]⟩
  | otherErr =>
    exact .inr ⟨⟨"Unknown error occurred", 0, none⟩, by simp [HttpClient.makeRequest, h]⟩

/-- C2 counterexample: an HTTP error response whose body *has* an `error`
field that is the empty string does not become the message — the code
tests JS truthiness (`data.error || ...`), not presence, so the
synthesized `"HTTP {status}: {statusText}"` string is used instead. -/
theorem http_error_empty_error_field_uses_synthesized_message :
    (HttpClient.ofConfig ⟨"k", none, none⟩).makeRequest "/validate"
        (⟨"POST", (none : Option Unit), []⟩) none
        (fun _ => (.responseErr 500 "Internal Server Error" (some "") [] :
          AxiosOutcome Unit))
      = .error ⟨"HTTP 500: Internal Server Error", 500, some (.apiBody (some "") [])⟩ ∧
    ("HTTP 500: Internal Server Error" : String) ≠ "" := by
  exact ⟨rfl, by decide⟩

/-- C2 (amended): on an HTTP error response the raised `LimitlyError`
has: message equal to the body's `error` field when that field is
present with a non-empty string, otherwise (field absent or empty) the
synthesized `"HTTP {status}: {statusText}"`; statusCode equal to the
numeric status; and the full body attached.  The
`{status: 401, data: {error: "Invalid API key"}}` instance yields message
`"Invalid API key"` and statusCode 401. -/
theorem http_error_message_status_and_body {B T : Type} (client : HttpClient)
    (endpoint : String) (opts : AxiosOpts B) (ro : Option RequestOptions)
    (t1 t2 : RequestConfig B → AxiosOutcome T)
    (status1 : Nat) (st1 : String) (s : String) (rest1 : List (String × String))
    (status2 : Nat) (st2 : String) (e2 : Option String) (rest2 : List (String × String))
    (h1 : t1 (client.requestConfig endpoint opts ro) = .responseErr status1 st1 (some s) rest1)
    (hs : s ≠ "")
    (h2 : t2 (client.requestConfig endpoint opts ro) = .responseErr status2 st2 e2 rest2)
    (he2 : e2 = none ∨ e2 = some "") :
    client.makeRequest endpoint opts ro t1
      = .error ⟨s, status1, some (.apiBody (some s) rest1)⟩ ∧
    client.makeRequest endpoint opts ro t2
      = .error ⟨"HTTP " ++ toString status2 ++ ": " ++ st2, status2,
                some (.apiBody e2 rest2)⟩ ∧
    (HttpClient.ofConfig ⟨"key", none, none⟩).post "/x" (none : Option Unit) none
        (fun _ => (.responseErr 401 "Unauthorized" (some "Invalid API key") [] :
          AxiosOutcome Unit))
      = .error ⟨"Invalid API key", 401, some (.apiBody (some "Invalid API key") [])⟩ := by
  refine ⟨?_, ?_, rfl⟩
  · simp [HttpClient.makeRequest, h1, jsOrStr, hs]
  · rcases he2 with he2 | he2 <;> simp [HttpClient.makeRequest, h2, he2, jsOrStr]

/-- C2 witness. -/
theorem http_error_message_status_and_body_witness :
    (HttpClient.ofConfig ⟨"key", none, none⟩).makeRequest "/a"
        (⟨"GET", (none : Option Unit), []⟩) none
        (fun _ => (.responseErr 401 "Unauthorized" (some "Invalid API key") [] :
          AxiosOutcome Unit))
      = .error ⟨"Invalid API key", 401, some (.apiBody (some "Invalid API key") [])⟩ ∧
    (HttpClient.ofConfig ⟨"key", none, none⟩).makeRequest "/a"
        (⟨"GET", (none : Option Unit), []⟩) none
        (fun _ => (.responseErr 404 "Not Found" none [] : AxiosOutcome Unit))
      = .error ⟨"HTTP 404: Not Found", 404, some (.apiBody none [])⟩ :=
  let h := http_error_message_status_and_body
    (HttpClient.ofConfig ⟨"key", none, none⟩) "/a" ⟨"GET", (none : Option Unit), []⟩ none
    (fun _ => .responseErr 401 "Unauthorized" (some "Invalid API key") [])
    (fun _ => .responseErr 404 "Not Found" none [])
    401 "Unauthorized" "Invalid API key" [] 404 "Not Found" none []
    rfl (by decide) rfl (.inl rfl)
  ⟨h.1, h.2.1⟩

/-- C3: a request-sent-but-no-response failure is normalized to
statusCode 0, message `"Network error: {underlying message}"` and body
`{originalError: <message>}`; any other pre-send failure that is not
already a `LimitlyError` is normalized to statusCode 0 and message
`"Unknown error occurred"` (with no body attached). -/
theorem network_and_unknown_error_normalization {B T : Type} (client : HttpClient)
    (endpoint : String) (opts : AxiosOpts B) (ro : Option RequestOptions)
    (t1 t2 : RequestConfig B → AxiosOutcome T) (msg : String)
    (h1 : t1 (client.requestConfig endpoint opts ro) = .requestErr msg)
    (h2 : t2 (client.requestConfig endpoint opts ro) = .otherErr) :
    client.makeRequest endpoint opts ro t1
      = .error ⟨"Network error: " ++ msg, 0, some (.networkBody msg)⟩ ∧
    client.makeRequest endpoint opts ro t2
      = .error ⟨"Unknown error occurred", 0, none⟩ := by
  constructor
  · simp [HttpClient.makeRequest, h1]
  · simp [HttpClient.makeRequest, h2]

/-- C3 witness. -/
theorem network_and_unknown_error_normalization_witness :
    (HttpClient.ofConfig ⟨"k", none, none⟩).makeRequest "/a"
        (⟨"GET", (none : Option Unit), []⟩) none
        (fun _ => (.requestErr "timeout of 30000ms exceeded" : AxiosOutcome Unit))
      = .error ⟨"Network error: timeout of 30000ms exceeded", 0,
                some (.networkBody "timeout of 30000ms exceeded")⟩ ∧
    (HttpClient.ofConfig ⟨"k", none, none⟩).makeRequest "/a"
        (⟨"GET", (none : Option Unit), []⟩) none
        (fun _ => (.otherErr : AxiosOutcome Unit))
      = .error ⟨"Unknown error occurred", 0, none⟩ :=
  network_and_unknown_error_normalization (HttpClient.ofConfig ⟨"k", none, none⟩)
    "/a" ⟨"GET", (none : Option Unit), []⟩ none
    (fun _ => .requestErr "timeout of 30000ms exceeded") (fun _ => .otherErr)
    "timeout of 30000ms exceeded" rfl rfl

/-- C4: a failure that is already a `LimitlyError` is re-raised
unchanged — same message, statusCode and body — not re-wrapped. -/
theorem limitly_error_rethrown_unchanged {B T : Type} (client : HttpClient)
    (endpoint : String) (opts : AxiosOpts B) (ro : Option RequestOptions)
    (transport : RequestConfig B → AxiosOutcome T) (e : LimitlyError)
    (h : transport (client.requestConfig endpoint opts ro) = .limitlyErr e) :
    client.makeRequest endpoint opts ro transport = .error e := by
  simp [HttpClient.makeRequest, h]

/-- C4 witness. -/
theorem limitly_error_rethrown_unchanged_witness :
    (HttpClient.ofConfig ⟨"k", none, none⟩).makeRequest "/a"
        (⟨"GET", (none : Option Unit), []⟩) none
        (fun _ => (.limitlyErr ⟨"boom", 418, some (.networkBody "x")⟩ :
          AxiosOutcome Unit))
      = .error ⟨"boom", 418, some (.networkBody "x")⟩ :=
  limitly_error_rethrown_unchanged (HttpClient.ofConfig ⟨"k", none, none⟩) "/a"
    ⟨"GET", (none : Option Unit), []⟩ none
    (fun _ => .limitlyErr ⟨"boom", 418, some (.networkBody "x")⟩)
    ⟨"boom", 418, some (.networkBody "x")⟩ rfl

/-- C5 counterexample: a per-call options object carrying
`timeout: 0` does *not* make the effective timeout 0 — the code resolves
`requestOptions?.timeout || this.timeout` with JS `||`, and `0` is
falsy, so the construction-time timeout (here 1000) wins. -/
theorem timeout_zero_falls_back_to_config :
    ((HttpClient.ofConfig ⟨"k", none, some 1000⟩).requestConfig "/x"
        (⟨"GET", (none : Option Unit), []⟩) (some ⟨some 0, [], none, none⟩)).timeout
      = 1000 ∧ (1000 : Nat) ≠ 0 :=
  ⟨rfl, by decide⟩

/-- C5 (amended): the effective timeout equals
`requestOptions.timeoutMillis` whenever that field is present with a
non-zero value; when it is absent — or present with the falsy value 0 —
it equals the `ClientConfig` timeout captured at construction. -/
theorem timeout_resolution {B : Type} (client : HttpClient) (endpoint : String)
    (opts : AxiosOpts B) (ro : Option RequestOptions) (t : Nat)
    (h1 : ro.bind RequestOptions.timeout = some t) (ht : t ≠ 0)
    (ro2 : Option RequestOptions)
    (h2 : ro2.bind RequestOptions.timeout = none ∨
          ro2.bind RequestOptions.timeout = some 0) :
    (client.requestConfig endpoint opts ro).timeout = t ∧
    (client.requestConfig endpoint opts ro2).timeout = client.timeout := by
  constructor
  · simp [HttpClient.requestConfig, jsOrNat, h1, ht]
  · rcases h2 with h2 | h2 <;> simp [HttpClient.requestConfig, jsOrNat, h2]

/-- C5 witness. -/
theorem timeout_resolution_witness :
    ((HttpClient.ofConfig ⟨"k", none, some 1000⟩).requestConfig "/x"
        (⟨"GET", (none : Option Unit), []⟩) (some ⟨some 5000, [], none, none⟩)).timeout
      = 5000 ∧
    ((HttpClient.ofConfig ⟨"k", none, some 1000⟩).requestConfig "/x"
        (⟨"GET", (none : Option Unit), []⟩) none).timeout
      = (HttpClient.ofConfig ⟨"k", none, some 1000⟩).timeout :=
  timeout_resolution (HttpClient.ofConfig ⟨"k", none, some 1000⟩) "/x"
    ⟨"GET", (none : Option Unit), []⟩ (some ⟨some 5000, [], none, none⟩) 5000
    rfl (by decide) none (.inl rfl)

/-! ## Claims about the request gates -/

/-- C6 counterexample: a header value that does not start with
`"Bearer "` but contains it elsewhere is *not* used verbatim — JS
`replace` removes the first occurrence anywhere, so
`"abcBearer def"` becomes the credential `"abcdef"`. -/
theorem bearer_removed_despite_not_prefix :
    extractApiKey [("authorization", "abcBearer def")] "authorization"
      = some "abcdef" ∧
    ("abcdef" : String) ≠ "abcBearer def" ∧
    "Bearer ".data.isPrefixOf "abcBearer def".data = false :=
  ⟨by decide, by decide, by decide⟩

/-- C6 (amended): credential extraction removes the *first occurrence*
of the literal substring `"Bearer "` anywhere in the resolved header
value (JS replace-first semantics): a value starting with `"Bearer "`
has that prefix stripped; a value not containing the substring at all is
used verbatim; but a value containing `"Bearer "` other than as a prefix
is also altered.  Both adapters use exactly this extraction. -/
theorem bearer_strip_first_occurrence :
    (∀ s : String, containsSub "Bearer ".data s.data = false → stripBearer s = s) ∧
    (∀ s : String, "Bearer ".data.isPrefixOf s.data = true →
      stripBearer s = String.mk (s.data.drop 7)) ∧
    (∀ headers name, extractApiKey headers name
      = jsOr ((lookupHeader headers name).map stripBearer)
             ((lookupHeader headers "authorization").map stripBearer)) ∧
    stripBearer "xBearer y" = "xy" :=
  ⟨stripBearer_not_contains, stripBearer_prefix_case, fun _ _ => rfl, by decide⟩

/-- C6 witness. -/
theorem bearer_strip_first_occurrence_witness :
    stripBearer "abc" = "abc" ∧ stripBearer "Bearer tok123" = "tok123" := by
  refine ⟨bearer_strip_first_occurrence.1 "abc" (by decide), ?_⟩
  rw [bearer_strip_first_occurrence.2.1 "Bearer tok123" (by decide)]
  decide

/-- C7: when no credential resolves, both adapters answer HTTP 401 with
body `{error: "API Key required"}`, never call the validate operation,
and never invoke the continuation/handler; the middleware additionally
invokes the validation-error hook exactly when one was provided. -/
theorem missing_credential_rejects_401 {E R : Type} (opts : MwOptions) (req : MwReq)
    (hasNext : Bool)
    (validate : String → Option String → String → Except E ValidateResp)
    (wopts : WrlOptions R) (wreq : WrlReq)
    (wvalidate : String → String → String → Except E ValidateResp)
    (handler : Except E R)
    (hmw : jsStrTruthy (extractApiKey req.headers
      (jsOrStr opts.apiKeyHeader "authorization")) = false)
    (hwrl : jsStrTruthy (extractApiKey wreq.headers
      (jsOrStr wopts.apiKeyHeader "authorization")) = false) :
    (runMiddleware opts req hasNext validate).response
      = some (401, GateBody.errBody "API Key required") ∧
    (runMiddleware opts req hasNext validate).validateCalled = false ∧
    (runMiddleware opts req hasNext validate).nextCalled = false ∧
    (runMiddleware opts req hasNext validate).onValidationErrorCalled
      = opts.hasOnValidationError ∧
    (runWithRateLimit wopts wreq wvalidate handler).result
      = .ok (.gateJson 401 (.errBody "API Key required")) ∧
    (runWithRateLimit wopts wreq wvalidate handler).validateCalled = false ∧
    (runWithRateLimit wopts wreq wvalidate handler).handlerInvoked = false := by
  simp [runMiddleware, runWithRateLimit, hmw, hwrl]

/-- C7 witness. -/
theorem missing_credential_rejects_401_witness :
    (runMiddleware (E := Unit) ⟨none, false, true⟩ ⟨[], none, none, "GET"⟩ true
        (fun _ _ _ => .ok ⟨true, none, none, none⟩)).response
      = some (401, GateBody.errBody "API Key required") ∧
    (runMiddleware (E := Unit) ⟨none, false, true⟩ ⟨[], none, none, "GET"⟩ true
        (fun _ _ _ => .ok ⟨true, none, none, none⟩)).validateCalled = false ∧
    (runMiddleware (E := Unit) ⟨none, false, true⟩ ⟨[], none, none, "GET"⟩ true
        (fun _ _ _ => .ok ⟨true, none, none, none⟩)).nextCalled = false ∧
    (runMiddleware (E := Unit) ⟨none, false, true⟩ ⟨[], none, none, "GET"⟩ true
        (fun _ _ _ => .ok ⟨true, none, none, none⟩)).onValidationErrorCalled = true ∧
    (runWithRateLimit (E := Unit) (R := Unit) ⟨none, none⟩
        ⟨[], ⟨"https://e.com", "/a", ""⟩, "GET"⟩
        (fun _ _ _ => .ok ⟨true, none, none, none⟩) (.ok ())).result
      = .ok (.gateJson 401 (.errBody "API Key required")) ∧
    (runWithRateLimit (E := Unit) (R := Unit) ⟨none, none⟩
        ⟨[], ⟨"https://e.com", "/a", ""⟩, "GET"⟩
        (fun _ _ _ => .ok ⟨true, none, none, none⟩) (.ok ())).validateCalled = false ∧
    (runWithRateLimit (E := Unit) (R := Unit) ⟨none, none⟩
        ⟨[], ⟨"https://e.com", "/a", ""⟩, "GET"⟩
        (fun _ _ _ => .ok ⟨true, none, none, none⟩) (.ok ())).handlerInvoked = false :=
  missing_credential_rejects_401 ⟨none, false, true⟩ ⟨[], none, none, "GET"⟩ true
    (fun _ _ _ => .ok ⟨true, none, none, none⟩) ⟨none, none⟩
    ⟨[], ⟨"https://e.com", "/a", ""⟩, "GET"⟩
    (fun _ _ _ => .ok ⟨true, none, none, none⟩) (.ok ()) (by decide) (by decide)

/-- C8: on a not-allowed validation outcome, the middleware invokes the
rate-limit hook exactly when provided and answers 429 with body
`{error: "Rate limit exceeded", details: <outcome details, unchanged>}`
without calling `next`; the wrapper returns the caller-supplied override
response when one was supplied and the equivalent 429 response
otherwise, never invoking the handler. -/
theorem not_allowed_rejects_429 {E R : Type} (opts : MwOptions) (req : MwReq)
    (hasNext : Bool)
    (validate : String → Option String → String → Except E ValidateResp)
    (r : ValidateResp)
    (hk : jsStrTruthy (extractApiKey req.headers
      (jsOrStr opts.apiKeyHeader "authorization")) = true)
    (hv : validate ((extractApiKey req.headers
        (jsOrStr opts.apiKeyHeader "authorization")).getD "")
        (jsOr req.url req.path) req.method = .ok r)
    (hs : r.success = false)
    (wh : Option String) (ovr : R) (wreq : WrlReq)
    (wvalidate : String → String → String → Except E ValidateResp)
    (handler : Except E R) (r2 : ValidateResp)
    (hk2 : jsStrTruthy (extractApiKey wreq.headers
      (jsOrStr wh "authorization")) = true)
    (hv2 : wvalidate ((extractApiKey wreq.headers
        (jsOrStr wh "authorization")).getD "")
        wreq.url.pathname wreq.method = .ok r2)
    (hs2 : r2.success = false) :
    (runMiddleware opts req hasNext validate).response
      = some (429, GateBody.errBodyDetails "Rate limit exceeded" r.details) ∧
    (runMiddleware opts req hasNext validate).onRateLimitExceededCalled
      = opts.hasOnRateLimitExceeded ∧
    (runMiddleware opts req hasNext validate).nextCalled = false ∧
    (runWithRateLimit ⟨wh, some ovr⟩ wreq wvalidate handler).result
      = .ok (.overridden ovr) ∧
    (runWithRateLimit ⟨wh, some ovr⟩ wreq wvalidate handler).handlerInvoked = false ∧
    (runWithRateLimit ⟨wh, none⟩ wreq wvalidate handler).result
      = .ok (.gateJson 429 (.errBodyDetails "Rate limit exceeded" r2.details)) ∧
    (runWithRateLimit ⟨wh, none⟩ wreq wvalidate handler).handlerInvoked = false := by
  simp [runMiddleware, runWithRateLimit, hk, hv, hs, hk2, hv2, hs2]

/-- C8 witness. -/
theorem not_allowed_rejects_429_witness :
    (runMiddleware (E := Unit) ⟨none, true, false⟩
        ⟨[("authorization", "Bearer k")], some "/x", none, "GET"⟩ true
        (fun _ _ _ => .ok ⟨false, none, none, some ⟨5, 100, "Basic", "s", "e"⟩⟩)).response
      = some (429, GateBody.errBodyDetails "Rate limit exceeded"
              (some ⟨5, 100, "Basic", "s", "e"⟩)) ∧
    (runMiddleware (E := Unit) ⟨none, true, false⟩
        ⟨[("authorization", "Bearer k")], some "/x", none, "GET"⟩ true
        (fun _ _ _ => .ok ⟨false, none, none, some ⟨5, 100, "Basic", "s", "e"⟩⟩)).onRateLimitExceededCalled = true ∧
    (runMiddleware (E := Unit) ⟨none, true, false⟩
        ⟨[("authorization", "Bearer k")], some "/x", none, "GET"⟩ true
        (fun _ _ _ => .ok ⟨false, none, none, some ⟨5, 100, "Basic", "s", "e"⟩⟩)).nextCalled = false ∧
    (runWithRateLimit (E := Unit) (R := Nat) ⟨none, some 7⟩
        ⟨[("authorization", "Bearer k")], ⟨"https://e.com", "/x", ""⟩, "GET"⟩
        (fun _ _ _ => .ok ⟨false, none, none, some ⟨5, 100, "Basic", "s", "e"⟩⟩)
        (.ok 9)).result = .ok (.overridden 7) ∧
    (runWithRateLimit (E := Unit) (R := Nat) ⟨none, some 7⟩
        ⟨[("authorization", "Bearer k")], ⟨"https://e.com", "/x", ""⟩, "GET"⟩
        (fun _ _ _ => .ok ⟨false, none, none, some ⟨5, 100, "Basic", "s", "e"⟩⟩)
        (.ok 9)).handlerInvoked = false ∧
    (runWithRateLimit (E := Unit) (R := Nat) ⟨none, none⟩
        ⟨[("authorization", "Bearer k")], ⟨"https://e.com", "/x", ""⟩, "GET"⟩
        (fun _ _ _ => .ok ⟨false, none, none, some ⟨5, 100, "Basic", "s", "e"⟩⟩)
        (.ok 9)).result
      = .ok (.gateJson 429 (.errBodyDetails "Rate limit exceeded"
              (some ⟨5, 100, "Basic", "s", "e"⟩))) ∧
    (runWithRateLimit (E := Unit) (R := Nat) ⟨none, none⟩
        ⟨[("authorization", "Bearer k")], ⟨"https://e.com", "/x", ""⟩, "GET"⟩
        (fun _ _ _ => .ok ⟨false, none, none, some ⟨5, 100, "Basic", "s", "e"⟩⟩)
        (.ok 9)).handlerInvoked = false :=
  not_allowed_rejects_429 ⟨none, true, false⟩
    ⟨[("authorization", "Bearer k")], some "/x", none, "GET"⟩ true
    (fun _ _ _ => .ok ⟨false, none, none, some ⟨5, 100, "Basic", "s", "e"⟩⟩)
    ⟨false, none, none, some ⟨5, 100, "Basic", "s", "e"⟩⟩ (by decide) rfl rfl
    none 7 ⟨[("authorization", "Bearer k")], ⟨"https://e.com", "/x", ""⟩, "GET"⟩
    (fun _ _ _ => .ok ⟨false, none, none, some ⟨5, 100, "Basic", "s", "e"⟩⟩)
    (.ok 9) ⟨false, none, none, some ⟨5, 100, "Basic", "s", "e"⟩⟩
    (by decide) rfl rfl

/-- C9: in `withRateLimit`, an error raised during the adapter's own
validation step yields a returned 500 response
`{error: "Validation error"}` (handler never invoked), while a rejection
of the wrapped handler's returned promise is not caught — it propagates
to the adapter's caller unchanged (the adapter returns the handler's
promise without awaiting it inside the `try`). -/
theorem validation_error_500_handler_rejection_propagates {E R : Type}
    (opts : WrlOptions R) (req : WrlReq)
    (v1 v2 : String → String → String → Except E ValidateResp)
    (handler : Except E R)
    (hk : jsStrTruthy (extractApiKey req.headers
      (jsOrStr opts.apiKeyHeader "authorization")) = true)
    (e1 : E)
    (h1 : v1 ((extractApiKey req.headers
        (jsOrStr opts.apiKeyHeader "authorization")).getD "")
        req.url.pathname req.method = .error e1)
    (r2 : ValidateResp)
    (h2 : v2 ((extractApiKey req.headers
        (jsOrStr opts.apiKeyHeader "authorization")).getD "")
        req.url.pathname req.method = .ok r2)
    (hs : r2.success = true)
    (e3 : E) (hh : handler = .error e3) :
    (runWithRateLimit opts req v1 handler).result
      = .ok (.gateJson 500 (.errBody "Validation error")) ∧
    (runWithRateLimit opts req v1 handler).handlerInvoked = false ∧
    (runWithRateLimit opts req v2 handler).result = .error e3 ∧
    (runWithRateLimit opts req v2 handler).handlerInvoked = true := by
  simp [runWithRateLimit, hk, h1, h2, hs, hh, Except.map]

/-- C9 witness. -/
theorem validation_error_500_handler_rejection_propagates_witness :
    (runWithRateLimit (E := String) (R := Nat) ⟨none, none⟩
        ⟨[("authorization", "Bearer k")], ⟨"https://e.com", "/x", ""⟩, "GET"⟩
        (fun _ _ _ => .error "network down") (.error "handler blew up")).result
      = .ok (.gateJson 500 (.errBody "Validation error")) ∧
    (runWithRateLimit (E := String) (R := Nat) ⟨none, none⟩
        ⟨[("authorization", "Bearer k")], ⟨"https://e.com", "/x", ""⟩, "GET"⟩
        (fun _ _ _ => .error "network down") (.error "handler blew up")).handlerInvoked
      = false ∧
    (runWithRateLimit (E := String) (R := Nat) ⟨none, none⟩
        ⟨[("authorization", "Bearer k")], ⟨"https://e.com", "/x", ""⟩, "GET"⟩
        (fun _ _ _ => .ok ⟨true, none, none, none⟩) (.error "handler blew up")).result
      = .error "handler blew up" ∧
    (runWithRateLimit (E := String) (R := Nat) ⟨none, none⟩
        ⟨[("authorization", "Bearer k")], ⟨"https://e.com", "/x", ""⟩, "GET"⟩
        (fun _ _ _ => .ok ⟨true, none, none, none⟩) (.error "handler blew up")).handlerInvoked
      = true :=
  validation_error_500_handler_rejection_propagates ⟨none, none⟩
    ⟨[("authorization", "Bearer k")], ⟨"https://e.com", "/x", ""⟩, "GET"⟩
    (fun _ _ _ => .error "network down") (fun _ _ _ => .ok ⟨true, none, none, none⟩)
    (.error "handler blew up") (by decide) "network down" rfl
    ⟨true, none, none, none⟩ rfl rfl "handler blew up" rfl

/-- C10 counterexample: with `req.url` present but equal to the empty
string (and `req.path` set to `"/p"`), the middleware passes `"/p"` to
the validate operation, not `req.url` verbatim — the fallback
`req.url || req.path` fires on any falsy `req.url`, not only on an
absent one. -/
theorem middleware_empty_url_falls_back_to_path :
    (runMiddleware (E := Unit) ⟨none, false, false⟩
        ⟨[("authorization", "Bearer k")], some "", some "/p", "GET"⟩ false
        (fun _ _ _ => .ok ⟨true, none, none, none⟩)).validateArgs
      = some ("k", some "/p", "GET") ∧
    (some "" : Option String) ≠ none ∧
    (some "/p" : Option String) ≠ some "" :=
  ⟨by decide, by decide, by decide⟩

/-- C10 (amended): the two adapters pass different endpoint strings to
the validate operation — the handler-wrapping adapter passes only the
URL's path component (query string excluded), while the callback
middleware passes `req.url` verbatim whenever it is a nonempty string
(which may include the query string), falling back to `req.path` when
`req.url` is absent *or empty*.  For a request with a query string the
two adapters validate different endpoint values for the same URL. -/
theorem endpoint_divergence_between_adapters {E R : Type} (opts : MwOptions)
    (req : MwReq) (hasNext : Bool)
    (validate : String → Option String → String → Except E ValidateResp)
    (hk : jsStrTruthy (extractApiKey req.headers
      (jsOrStr opts.apiKeyHeader "authorization")) = true)
    (wopts : WrlOptions R) (wreq : WrlReq)
    (wvalidate : String → String → String → Except E ValidateResp)
    (handler : Except E R)
    (hk2 : jsStrTruthy (extractApiKey wreq.headers
      (jsOrStr wopts.apiKeyHeader "authorization")) = true) :
    (runMiddleware opts req hasNext validate).validateArgs
      = some ((extractApiKey req.headers
              (jsOrStr opts.apiKeyHeader "authorization")).getD "",
              jsOr req.url req.path, req.method) ∧
    (runWithRateLimit wopts wreq wvalidate handler).validateArgs
      = some ((extractApiKey wreq.headers
              (jsOrStr wopts.apiKeyHeader "authorization")).getD "",
              wreq.url.pathname, wreq.method) ∧
    (∀ url path : Option String, jsStrTruthy url = true → jsOr url path = url) ∧
    (∀ url path : Option String, url = none ∨ url = some "" → jsOr url path = path) ∧
    (runMiddleware (E := Unit) ⟨none, false, false⟩
        ⟨[("authorization", "Bearer k")], some "/api/users?page=1", none, "GET"⟩ false
        (fun _ _ _ => .ok ⟨true, none, none, none⟩)).validateArgs
      = some ("k", some "/api/users?page=1", "GET") ∧
    (runWithRateLimit (E := Unit) (R := Unit) ⟨none, none⟩
        ⟨[("authorization", "Bearer k")],
          ⟨"https://example.com", "/api/users", "?page=1"⟩, "GET"⟩
        (fun _ _ _ => .ok ⟨true, none, none, none⟩) (.ok ())).validateArgs
      = some ("k", "/api/users", "GET") ∧
    JsUrl.href ⟨"https://example.com", "/api/users", "?page=1"⟩
      = "https://example.com/api/users?page=1" ∧
    ("/api/users?page=1" : String) ≠ "/api/users" := by
  refine ⟨?_, ?_, ?_, ?_, by decide, by decide, by decide, by decide⟩
  · cases hv : validate ((extractApiKey req.headers
        (jsOrStr opts.apiKeyHeader "authorization")).getD "")
        (jsOr req.url req.path) req.method with
    | error e => simp [runMiddleware, hk, hv]
    | ok r => cases hr : r.success <;> simp [runMiddleware, hk, hv, hr]
  · cases hv : wvalidate ((extractApiKey wreq.headers
        (jsOrStr wopts.apiKeyHeader "authorization")).getD "")
        wreq.url.pathname wreq.method with
    | error e => simp [runWithRateLimit, hk2, hv]
    | ok r =>
      cases hr : r.success <;> cases ho : wopts.onRateLimitExceeded <;>
        simp [runWithRateLimit, hk2, hv, hr, ho]
  · intro url path h
    simp [jsOr, h]
  · rintro url path (h | h) <;> simp [jsOr, h, jsStrTruthy]

/-- C10 witness. -/
theorem endpoint_divergence_between_adapters_witness :
    (runMiddleware (E := Unit) ⟨none, false, false⟩
        ⟨[("authorization", "Bearer k")], some "/x?q=1", some "/x", "GET"⟩ true
        (fun _ _ _ => .ok ⟨true, none, none, none⟩)).validateArgs
      = some ("k", some "/x?q=1", "GET") ∧
    (runWithRateLimit (E := Unit) (R := Unit) ⟨none, none⟩
        ⟨[("authorization", "Bearer k")], ⟨"https://e.com", "/x", "?q=1"⟩, "GET"⟩
        (fun _ _ _ => .ok ⟨true, none, none, none⟩) (.ok ())).validateArgs
      = some ("k", "/x", "GET") :=
  let h := endpoint_divergence_between_adapters ⟨none, false, false⟩
    ⟨[("authorization", "Bearer k")], some "/x?q=1", some "/x", "GET"⟩ true
    (fun _ _ _ => .ok ⟨true, none, none, none⟩) (by decide)
    (R := Unit) ⟨none, none⟩
    ⟨[("authorization", "Bearer k")], ⟨"https://e.com", "/x", "?q=1"⟩, "GET"⟩
    (fun _ _ _ => .ok ⟨true, none, none, none⟩) (.ok ()) (by decide)
  ⟨h.1, h.2.1⟩

end Limitly
